import Mathlib

/-!
Shallow embedding of the streaming/download proxy endpoints of `src/index.js`
(an Express application).

Strings arriving on the wire (the raw path suffix and the decoded candidate
URL) are modelled as lists of byte values (`List Nat`); JavaScript strings
that only ever hold header values or JSON fields are modelled as Lean
`String`s.  Each HTTP handler is a pure function from its inputs — the raw
path suffix after the route prefix has been stripped, the inbound `Range`
header, and an oracle describing the outcome of the (at most one) upstream
`axios` call — to the upstream request it issues (`none` when no network call
is made) and the ordered list of write events it performs on the response
object.  A `.head` event is the commit of status plus stored headers that
happens on the first body write of a piped response; a `.json` event is a
`res.status(s).json(body)` call.
-/

/-- Byte values of an ASCII Lean string (character code points, exact for the
ASCII strings used throughout the source). -/
def strBytes (s : String) : List Nat :=
  s.data.map Char.toNat

/-- Value of a hexadecimal digit character given by byte value, if it is one. -/
def hexDigit (c : Nat) : Option Nat :=
  if 48 ≤ c ∧ c ≤ 57 then some (c - 48)
  else if 65 ≤ c ∧ c ≤ 70 then some (c - 55)
  else if 97 ≤ c ∧ c ≤ 102 then some (c - 87)
  else none

/-- Byte encoded by two hexadecimal digit characters. -/
def hexPair (h1 h2 : Nat) : Option Nat := do
  let a ← hexDigit h1
  let b ← hexDigit h2
  pure (16 * a + b)

/-- Lower bound for the first continuation byte of a three-byte UTF-8
sequence with the given leading byte (0xE0 forbids overlong encodings,
0xED forbids surrogates). -/
def cont2lo (b : Nat) : Nat := if b = 224 then 160 else 128

/-- Upper bound for the first continuation byte of a three-byte UTF-8
sequence with the given leading byte. -/
def cont2hi (b : Nat) : Nat := if b = 237 then 159 else 191

/-- Lower bound for the first continuation byte of a four-byte UTF-8
sequence with the given leading byte (0xF0 forbids overlong encodings). -/
def cont3lo (b : Nat) : Nat := if b = 240 then 144 else 128

/-- Upper bound for the first continuation byte of a four-byte UTF-8
sequence with the given leading byte (0xF4 caps code points at 0x10FFFF). -/
def cont3hi (b : Nat) : Nat := if b = 244 then 143 else 191

/-- ECMAScript `decodeURIComponent` on a byte string: a `%` must be followed
by two hexadecimal digits; a decoded byte at or above 0x80 must open a valid
UTF-8 sequence whose continuation bytes are themselves given as `%`-escapes.
Returns `none` exactly when `decodeURIComponent` throws a `URIError`
(incomplete escape, bad hex digit, invalid or overlong UTF-8 escape
sequence); other characters pass through unchanged. -/
def decodeBytes : List Nat → Option (List Nat)
  | [] => some []
  | 37 :: h1 :: h2 :: rest => do
    let b ← hexPair h1 h2
    if b < 128 then
      let tail ← decodeBytes rest
      pure (b :: tail)
    else if 194 ≤ b ∧ b ≤ 223 then
      match rest with
      | 37 :: g1 :: g2 :: rest2 => do
        let b2 ← hexPair g1 g2
        if 128 ≤ b2 ∧ b2 ≤ 191 then
          let tail ← decodeBytes rest2
          pure (b :: b2 :: tail)
        else none
      | _ => none
    else if 224 ≤ b ∧ b ≤ 239 then
      match rest with
      | 37 :: g1 :: g2 :: 37 :: k1 :: k2 :: rest2 => do
        let b2 ← hexPair g1 g2
        let b3 ← hexPair k1 k2
        if cont2lo b ≤ b2 ∧ b2 ≤ cont2hi b ∧ 128 ≤ b3 ∧ b3 ≤ 191 then
          let tail ← decodeBytes rest2
          pure (b :: b2 :: b3 :: tail)
        else none
      | _ => none
    else if 240 ≤ b ∧ b ≤ 244 then
      match rest with
      | 37 :: g1 :: g2 :: 37 :: k1 :: k2 :: 37 :: m1 :: m2 :: rest2 => do
        let b2 ← hexPair g1 g2
        let b3 ← hexPair k1 k2
        let b4 ← hexPair m1 m2
        if cont3lo b ≤ b2 ∧ b2 ≤ cont3hi b ∧ 128 ≤ b3 ∧ b3 ≤ 191 ∧
            128 ≤ b4 ∧ b4 ≤ 191 then
          let tail ← decodeBytes rest2
          pure (b :: b2 :: b3 :: b4 :: tail)
        else none
      | _ => none
    else none
  | 37 :: _ => none
  | c :: rest => do
    let tail ← decodeBytes rest
    pure (c :: tail)

/-- JavaScript truthiness of a possibly-absent string value: `undefined` and
the empty string are falsy. -/
def jsTruthy : Option String → Bool
  | none => false
  | some s => !(s == "")

/-- Express `res.set` stringifies its value argument, so a JS `undefined`
header value becomes the literal string "undefined". -/
def jsStr : Option String → String
  | none => "undefined"
  | some s => s

/-- First allowed origin, line 406 and line 464 of `src/index.js`. -/
def allow1 : List Nat := strBytes "https://bcdnw.hakunaymatata.com/"

/-- Second allowed origin, line 406 and line 464 of `src/index.js`. -/
def allow2 : List Nat := strBytes "https://valiw.hakunaymatata.com/"

/-- Shared guard `!url || (!url.startsWith(allow1) && !url.startsWith(allow2))`
of both proxy handlers. -/
def urlRejected (d : List Nat) : Bool :=
  d.isEmpty || (!(allow1.isPrefixOf d) && !(allow2.isPrefixOf d))

/-- JSON field values occurring in the error bodies of the proxy endpoints. -/
inductive JVal
  | s (v : String)
  | n (v : Nat)
deriving DecidableEq

/-- Body of the 400 response of the download endpoint (lines 407-413). -/
def downloadBody400 : List (String × JVal) :=
  [("status", .n 400), ("success", .s "false"), ("creator", .s "GiftedTech"),
   ("message", .s "Invalid download URL")]

/-- Body of the 500 response of the download catch block (lines 448-454). -/
def downloadCatchBody (msg : String) : List (String × JVal) :=
  [("status", .n 500), ("success", .s "false"), ("creator", .s "GiftedTech"),
   ("message", .s "Failed to proxy download"), ("error", .s msg)]

/-- Body of the 400 response of the stream endpoint (lines 465-468). -/
def streamBody400 : List (String × JVal) :=
  [("status", .s "error"), ("message", .s "Invalid stream URL")]

/-- Body sent by the stream error listener when headers are unsent
(lines 530-533). -/
def streamErrBody : List (String × JVal) :=
  [("status", .s "error"), ("message", .s "Stream error occurred")]

/-- Body of the 500 response of the stream catch block (lines 545-549). -/
def streamCatchBody (msg : String) : List (String × JVal) :=
  [("status", .s "error"), ("message", .s "Failed to proxy stream"),
   ("error", .s msg)]

/-- Response headers of interest read from the upstream `axios` response. -/
structure UpHeaders where
  contentType : Option String
  contentLength : Option String
  contentRange : Option String
  contentDisposition : Option String
deriving DecidableEq

/-- Oracle describing the outcome of the upstream `axios` call: either the
promise rejects (network error, DNS failure, timeout) or a response with the
given final status and headers arrives, whose body stream delivers the given
bytes and then either ends normally or emits an error event. -/
inductive UpResult
  | netError (msg : String)
  | resp (status : Nat) (hs : UpHeaders) (delivered : List Nat) (errored : Bool)
deriving DecidableEq

/-- The upstream request a handler issues: target URL bytes plus outbound
headers. -/
structure UpReq where
  url : List Nat
  headers : List (String × String)
deriving DecidableEq

/-- Write events a handler performs on the Express response object. -/
inductive Ev
  | head (status : Nat) (headers : List (String × String))
  | body (bytes : List Nat)
  | json (status : Nat) (payload : List (String × JVal))
deriving DecidableEq

/-- Fixed outbound headers of the stream handler (lines 474-480). -/
def streamReqBase : List (String × String) :=
  [("User-Agent", "okhttp/4.12.0"),
   ("Referer", "https://fmoviesunblocked.net/"),
   ("Origin", "https://fmoviesunblocked.net"),
   ("Accept", "*/*"),
   ("Accept-Encoding", "identity")]

/-- Outbound stream headers with the inbound `Range` forwarded when truthy:
`if (req.headers.range) headers['Range'] = req.headers.range` (line 483). -/
def streamReqHeaders (range : Option String) : List (String × String) :=
  if jsTruthy range then streamReqBase ++ [("Range", jsStr range)]
  else streamReqBase

/-- Headers stored by the `res.set` block of the stream handler for any
upstream 200/206 response (lines 500-507). -/
def streamBaseHeaders (hs : UpHeaders) : List (String × String) :=
  [("Content-Type", jsStr hs.contentType),
   ("Content-Disposition", "inline; filename=\"stream.mp4\""),
   ("Cache-Control", "public, max-age=3600"),
   ("Accept-Ranges", "bytes"),
   ("Access-Control-Allow-Origin", "*"),
   ("Access-Control-Allow-Headers", "Range")]

/-- Status and headers the stream handler commits for an upstream 200/206:
the 206 branch fires only when the upstream `content-range` is truthy, the
200 branch only when `content-length` is truthy; otherwise the Express
default status 200 stands with no length headers (lines 509-521). -/
def streamRelayHead (status : Nat) (hs : UpHeaders) : Nat × List (String × String) :=
  if status = 206 ∧ jsTruthy hs.contentRange then
    (206, streamBaseHeaders hs ++
      [("Content-Range", jsStr hs.contentRange),
       ("Content-Length", jsStr hs.contentLength)])
  else if status = 200 ∧ jsTruthy hs.contentLength then
    (200, streamBaseHeaders hs ++ [("Content-Length", jsStr hs.contentLength)])
  else
    (200, streamBaseHeaders hs)

/-- Stream handler behaviour after the upstream call: `axios` rejects non-2xx
statuses (its default `validateStatus`), the handler itself throws on a 2xx
status other than 200/206, both landing in the catch block which emits a
single JSON 500 while headers are unsent; for 200/206 the body is piped, and
the error listener (lines 527-535) writes a JSON 500 only if the stream
errors before any byte (headers unsent), otherwise it merely logs. -/
def streamPhase2 : UpResult → List Ev
  | .netError msg => [.json 500 (streamCatchBody msg)]
  | .resp status hs delivered errored =>
    if 200 ≤ status ∧ status < 300 then
      if status = 200 ∨ status = 206 then
        if errored && delivered.isEmpty then
          [.json 500 streamErrBody]
        else
          [.head (streamRelayHead status hs).1 (streamRelayHead status hs).2,
           .body delivered]
      else
        [.json 500 (streamCatchBody
          ("Unexpected response status: " ++ toString status))]
    else
      [.json 500 (streamCatchBody
        ("Request failed with status code " ++ toString status))]

/-- The `GET /api/stream/*` handler (lines 460-552): `raw` is `req.url` with
the first occurrence of the route prefix removed; a decode failure is the
thrown `URIError` caught by the catch block. -/
def streamHandler (raw : List Nat) (range : Option String) (up : UpResult) :
    Option UpReq × List Ev :=
  match decodeBytes raw with
  | none => (none, [.json 500 (streamCatchBody "URI malformed")])
  | some d =>
    if urlRejected d then (none, [.json 400 streamBody400])
    else (some ⟨d, streamReqHeaders range⟩, streamPhase2 up)

/-- JavaScript `String.prototype.trim` whitespace test, restricted to the
ASCII whitespace characters. -/
def isJsSpace (c : Char) : Bool :=
  c == ' ' || c == Char.ofNat 9 || c == Char.ofNat 10 ||
  c == Char.ofNat 13 || c == Char.ofNat 11 || c == Char.ofNat 12

/-- Literal part of the quoted filename pattern. -/
def quotedLit : List Char := "filename=\"".data

/-- Attempt of the regex /filename="([^"]+)"/ at this exact position: the
literal must match, the capture must be non-empty, and a closing quote must
follow. -/
def quotedAt (l : List Char) : Option (List Char) :=
  if quotedLit.isPrefixOf l then
    let after := l.drop quotedLit.length
    let cap := after.takeWhile (fun c => !(c == '"'))
    if cap.isEmpty then none
    else if cap.length < after.length then some cap
    else none
  else none

/-- First match of the quoted pattern scanning left to right. -/
def firstQuoted : List Char → Option (List Char)
  | [] => none
  | c :: rest =>
    match quotedAt (c :: rest) with
    | some cap => some cap
    | none => firstQuoted rest

/-- Literal part of the unquoted filename pattern. -/
def unquotedLit : List Char := "filename=".data

/-- Attempt of the regex /filename=([^;]+)/ at this exact position. -/
def unquotedAt (l : List Char) : Option (List Char) :=
  if unquotedLit.isPrefixOf l then
    let cap := (l.drop unquotedLit.length).takeWhile (fun c => !(c == ';'))
    if cap.isEmpty then none else some cap
  else none

/-- First match of the unquoted pattern scanning left to right. -/
def firstUnquoted : List Char → Option (List Char)
  | [] => none
  | c :: rest =>
    match unquotedAt (c :: rest) with
    | some cap => some cap
    | none => firstUnquoted rest

/-- `match(/filename="([^"]+)"/) || match(/filename=([^;]+)/)` (lines
430-431): the unquoted pattern is consulted only when the quoted one has no
match anywhere in the header. -/
def cdCapture (l : List Char) : Option (List Char) :=
  match firstQuoted l with
  | some cap => some cap
  | none => firstUnquoted l

/-- JavaScript `trim`: strip whitespace from both ends. -/
def jsTrim (l : List Char) : List Char :=
  ((l.dropWhile isJsSpace).reverse.dropWhile isJsSpace).reverse

/-- Accumulates the current segment; a separator starts a new one.  The
result is the last element of `split(/[\\/]/)`, i.e. what `.pop()` returns. -/
def lastCompAux (acc : List Char) : List Char → List Char
  | [] => acc
  | c :: rest =>
    if c == '/' || c == '\\' then lastCompAux [] rest
    else lastCompAux (acc ++ [c]) rest

/-- `filename.split(/[\\/]/).pop()` (line 434). -/
def lastComponent (l : List Char) : List Char := lastCompAux [] l

/-- Fixed fallback filename (line 427). -/
def fallbackName : String := "Movie_by_GiftedTech.mp4"

/-- Filename chosen by the download handler from the upstream
content-disposition header (lines 426-436): when the header is truthy and one
pattern captures, the capture is trimmed and reduced to its final path
component; otherwise the fallback stands. -/
def extractFilename (cd : Option String) : String :=
  if jsTruthy cd then
    match cdCapture (jsStr cd).data with
    | some cap => ⟨lastComponent (jsTrim cap)⟩
    | none => fallbackName
  else fallbackName

/-- Fixed outbound headers of the download handler (lines 419-423). -/
def downloadReqHeaders : List (String × String) :=
  [("User-Agent", "okhttp/4.12.0"),
   ("Referer", "https://fmoviesunblocked.net/"),
   ("Origin", "https://fmoviesunblocked.net")]

/-- Headers stored by the download handler before piping (lines 438-442). -/
def downloadRelayHeaders (hs : UpHeaders) : List (String × String) :=
  [("Content-Type", jsStr hs.contentType),
   ("Content-Length", jsStr hs.contentLength),
   ("Content-Disposition",
     "attachment; filename=\"" ++ extractFilename hs.contentDisposition ++ "\"")]

/-- Download handler behaviour after the upstream call: `axios` rejects
non-2xx statuses into the catch block; on 2xx the headers are stored and the
body piped with the Express default status 200. -/
def downloadPhase2 : UpResult → List Ev
  | .netError msg => [.json 500 (downloadCatchBody msg)]
  | .resp status hs delivered _ =>
    if 200 ≤ status ∧ status < 300 then
      [.head 200 (downloadRelayHeaders hs), .body delivered]
    else
      [.json 500 (downloadCatchBody
        ("Request failed with status code " ++ toString status))]

/-- The `GET /api/download/*` handler (lines 403-456). -/
def downloadHandler (raw : List Nat) (up : UpResult) : Option UpReq × List Ev :=
  match decodeBytes raw with
  | none => (none, [.json 500 (downloadCatchBody "URI malformed")])
  | some d =>
    if urlRejected d then (none, [.json 400 downloadBody400])
    else (some ⟨d, downloadReqHeaders⟩, downloadPhase2 up)

/-- Headers set by the global CORS middleware (lines 17-26). -/
def corsMwHeaders : List (String × String) :=
  [("Access-Control-Allow-Origin", "*"),
   ("Access-Control-Allow-Methods", "GET, POST, PUT, DELETE, OPTIONS"),
   ("Access-Control-Allow-Headers",
    "Origin, X-Requested-With, Content-Type, Accept, Authorization")]

/-- A complete simple response: status, headers and body text. -/
structure SimpleResp where
  status : Nat
  headers : List (String × String)
  payload : String
deriving DecidableEq

/-- A middleware either responds itself or passes control on. -/
inductive MwStep
  | respond (r : SimpleResp)
  | next
deriving DecidableEq

/-- Global CORS middleware: for an OPTIONS request it calls
`res.sendStatus(200)` — which sends the status message "OK" as the body —
and never calls `next()` (lines 21-25). -/
def corsMiddleware (method : String) : MwStep :=
  if method == "OPTIONS" then .respond ⟨200, corsMwHeaders, "OK"⟩ else .next

/-- The `app.options('/api/stream/*')` route (lines 555-560):
`res.status(200).send()` sends an empty body. -/
def optionsStreamRoute : SimpleResp :=
  ⟨200,
   [("Access-Control-Allow-Origin", "*"),
    ("Access-Control-Allow-Methods", "GET, OPTIONS"),
    ("Access-Control-Allow-Headers", "Range")],
   ""⟩

/-- Express dispatch of `OPTIONS /api/stream/<suffix>`: the middleware stack
runs in registration order, so the CORS middleware sees the request before
the route can. -/
def dispatchOptionsStream (_suffix : String) : SimpleResp :=
  match corsMiddleware "OPTIONS" with
  | .respond r => r
  | .next => optionsStreamRoute

/-- A valid candidate URL used by concrete witnesses. -/
def goodRaw : List Nat := strBytes "https://valiw.hakunaymatata.com/movie.mp4"

/-- Helper: the accumulator-based last-segment function never returns a
character that is a path separator, provided the accumulator has none. -/
theorem lastCompAux_no_sep : ∀ (l acc : List Char),
    (∀ c ∈ acc, (c == '/' || c == '\\') = false) →
    ∀ c ∈ lastCompAux acc l, (c == '/' || c == '\\') = false
  | [], _, h => h
  | c :: rest, acc, h => by
    rw [lastCompAux]
    split
    · exact lastCompAux_no_sep rest [] (by simp)
    · rename_i hc
      refine lastCompAux_no_sep rest (acc ++ [c]) ?_
      intro x hx
      rcases List.mem_append.mp hx with hx | hx
      · exact h x hx
      · rw [List.mem_singleton] at hx
        subst hx
        cases hb : (x == '/' || x == '\\') with
        | false => rfl
        | true => exact absurd hb hc

/-- C1: for every candidate URL whose once-decoded form does not start with
one of the two allowed origin prefixes, both the download endpoint and the
stream endpoint respond with HTTP 400 and issue zero upstream requests. -/
theorem c1_invalid_url_rejected_no_upstream
    (raw d : List Nat) (range : Option String) (up : UpResult)
    (hdec : decodeBytes raw = some d)
    (h1 : allow1.isPrefixOf d = false) (h2 : allow2.isPrefixOf d = false) :
    downloadHandler raw up = (none, [.json 400 downloadBody400]) ∧
    streamHandler raw range up = (none, [.json 400 streamBody400]) := by
  have hrej : urlRejected d = true := by
    simp [urlRejected, h1, h2]
  exact ⟨by simp [downloadHandler, hdec, hrej], by simp [streamHandler, hdec, hrej]⟩

/-- Witness for C1 at a concrete disallowed URL. -/
theorem c1_witness :
    downloadHandler (strBytes "https://evil.example.com/v.mp4") (.netError "boom")
      = (none, [.json 400 downloadBody400]) ∧
    streamHandler (strBytes "https://evil.example.com/v.mp4") none (.netError "boom")
      = (none, [.json 400 streamBody400]) :=
  c1_invalid_url_rejected_no_upstream
    (strBytes "https://evil.example.com/v.mp4")
    (strBytes "https://evil.example.com/v.mp4") none (.netError "boom")
    (by decide) (by decide) (by decide)

/-- C2 (evaluation of the actual code): an OPTIONS request to /api/stream/*
is answered by the global CORS middleware, which sends status 200 with body
"OK" and Access-Control-Allow-Headers listing five header names, never
"Range"; the dedicated app.options route is unreachable. -/
theorem c2_options_preflight_actual_behavior :
    dispatchOptionsStream "https%3A%2F%2Fvaliw.hakunaymatata.com%2Fx.mp4"
      = ⟨200, corsMwHeaders, "OK"⟩
    ∧ corsMwHeaders.lookup "Access-Control-Allow-Headers"
      = some "Origin, X-Requested-With, Content-Type, Accept, Authorization"
    ∧ "OK" ≠ ""
    ∧ corsMwHeaders.lookup "Access-Control-Allow-Headers" ≠ some "Range" := by
  refine ⟨rfl, rfl, by decide, by decide⟩

/-- C3 counterexample: at the malformed raw segment "%" both handlers
respond with HTTP 500 (the caught URIError), not the claimed 400. -/
theorem c3_counterexample :
    downloadHandler (strBytes "%") (.netError "e")
      = (none, [.json 500 (downloadCatchBody "URI malformed")])
    ∧ streamHandler (strBytes "%") none (.netError "e")
      = (none, [.json 500 (streamCatchBody "URI malformed")])
    ∧ Ev.json 500 (downloadCatchBody "URI malformed") ≠ Ev.json 400 downloadBody400
    ∧ Ev.json 500 (streamCatchBody "URI malformed") ≠ Ev.json 400 streamBody400 := by
  decide

/-- C3 (amended): for every raw path segment whose URL-decoding fails, each
proxy handler makes no upstream call and does not crash, but responds with
HTTP 500 through the generic catch block rather than 400. -/
theorem c3_malformed_decode_caught_500
    (raw : List Nat) (range : Option String) (up : UpResult)
    (hdec : decodeBytes raw = none) :
    downloadHandler raw up = (none, [.json 500 (downloadCatchBody "URI malformed")]) ∧
    streamHandler raw range up = (none, [.json 500 (streamCatchBody "URI malformed")]) :=
  ⟨by simp [downloadHandler, hdec], by simp [streamHandler, hdec]⟩

/-- Witness for the amended C3 at the malformed segment "%x". -/
theorem c3_witness :
    downloadHandler (strBytes "%x") (.netError "e")
      = (none, [.json 500 (downloadCatchBody "URI malformed")]) ∧
    streamHandler (strBytes "%x") none (.netError "e")
      = (none, [.json 500 (streamCatchBody "URI malformed")]) :=
  c3_malformed_decode_caught_500 (strBytes "%x") none (.netError "e") (by decide)

/-- C4: for a valid URL, an inbound Range header is forwarded verbatim as
the outbound Range header (and the fixed outbound header set has none
otherwise), and an upstream 200 with a Content-Length yields a downstream
200 with Content-Length copied verbatim. -/
theorem c4_range_forwarding_and_200_relay
    (raw d : List Nat) (r : String) (up : UpResult)
    (hs : UpHeaders) (delivered : List Nat) (cl : String)
    (hdec : decodeBytes raw = some d)
    (hok : urlRejected d = false)
    (hr : (r == "") = false)
    (hcl : hs.contentLength = some cl)
    (hclne : (cl == "") = false) :
    (streamHandler raw (some r) up).1 = some ⟨d, streamReqBase ++ [("Range", r)]⟩
    ∧ streamReqBase.lookup "Range" = none
    ∧ (streamHandler raw none up).1 = some ⟨d, streamReqBase⟩
    ∧ (streamHandler raw none (.resp 200 hs delivered false)).2 =
        [.head 200 (streamBaseHeaders hs ++ [("Content-Length", cl)]),
         .body delivered] := by
  refine ⟨?_, by decide, ?_, ?_⟩
  · simp [streamHandler, hdec, hok, streamReqHeaders, jsTruthy, jsStr, hr]
  · simp [streamHandler, hdec, hok, streamReqHeaders, jsTruthy]
  · simp [streamHandler, hdec, hok, streamPhase2, streamRelayHead, jsTruthy,
      jsStr, hcl, hclne]

/-- Witness for C4 at a concrete valid URL, range and 200 response. -/
theorem c4_witness :
    (streamHandler goodRaw (some "bytes=0-99") (.netError "x")).1
      = some ⟨strBytes "https://valiw.hakunaymatata.com/movie.mp4",
              streamReqBase ++ [("Range", "bytes=0-99")]⟩
    ∧ streamReqBase.lookup "Range" = none
    ∧ (streamHandler goodRaw none (.netError "x")).1
      = some ⟨strBytes "https://valiw.hakunaymatata.com/movie.mp4", streamReqBase⟩
    ∧ (streamHandler goodRaw none
        (.resp 200 ⟨some "video/mp4", some "1000", none, none⟩ [1, 2, 3] false)).2 =
        [.head 200 (streamBaseHeaders ⟨some "video/mp4", some "1000", none, none⟩
            ++ [("Content-Length", "1000")]),
         .body [1, 2, 3]] :=
  c4_range_forwarding_and_200_relay goodRaw
    (strBytes "https://valiw.hakunaymatata.com/movie.mp4") "bytes=0-99"
    (.netError "x") ⟨some "video/mp4", some "1000", none, none⟩ [1, 2, 3] "1000"
    (by decide) (by decide) (by decide) (by decide) (by decide)

/-- C5 counterexample: an upstream 206 without a Content-Range header is
relayed with downstream status 200, not 206. -/
theorem c5_counterexample :
    (streamHandler goodRaw (some "bytes=100-199")
        (.resp 206 ⟨some "video/mp4", none, none, none⟩ [9, 9] false)).2
      = [.head 200 (streamBaseHeaders ⟨some "video/mp4", none, none, none⟩),
         .body [9, 9]]
    ∧ (streamRelayHead 206 ⟨some "video/mp4", none, none, none⟩).1 ≠ 206 := by
  decide

/-- C5 (amended): for every stream request with a valid URL where the
upstream responds 206 and supplies a non-empty Content-Range header, the
downstream response has status 206, Content-Range copied verbatim,
Content-Length set to the upstream Content-Length value (the string
"undefined" when absent), Content-Type copied, Content-Disposition inline,
Cache-Control public, max-age=3600, and Accept-Ranges bytes. -/
theorem c5_206_with_content_range_relay
    (raw d : List Nat) (range : Option String)
    (hs : UpHeaders) (delivered : List Nat) (cr : String)
    (hdec : decodeBytes raw = some d) (hok : urlRejected d = false)
    (hcr : hs.contentRange = some cr) (hcrne : (cr == "") = false) :
    (streamHandler raw range (.resp 206 hs delivered false)).2 =
      [.head 206 (streamBaseHeaders hs ++
        [("Content-Range", cr), ("Content-Length", jsStr hs.contentLength)]),
       .body delivered] := by
  simp [streamHandler, hdec, hok, streamPhase2, streamRelayHead, jsTruthy,
    jsStr, hcr, hcrne]

/-- Witness for the amended C5 at a concrete 206 response. -/
theorem c5_witness :
    (streamHandler goodRaw (some "bytes=100-199")
        (.resp 206 ⟨some "video/mp4", some "100", some "bytes 100-199/1000", none⟩
          [7] false)).2 =
      [.head 206 (streamBaseHeaders
          ⟨some "video/mp4", some "100", some "bytes 100-199/1000", none⟩ ++
        [("Content-Range", "bytes 100-199/1000"), ("Content-Length", "100")]),
       .body [7]] :=
  c5_206_with_content_range_relay goodRaw
    (strBytes "https://valiw.hakunaymatata.com/movie.mp4") (some "bytes=100-199")
    ⟨some "video/mp4", some "100", some "bytes 100-199/1000", none⟩ [7]
    "bytes 100-199/1000" (by decide) (by decide) (by decide) (by decide)

/-- C6: for every stream request with a valid URL where the upstream
responds with any status other than 200 or 206, the proxy does not relay the
upstream body and responds downstream with HTTP 500 (via the axios rejection
for non-2xx statuses or the handler's own throw for other 2xx statuses). -/
theorem c6_unexpected_status_500
    (raw d : List Nat) (range : Option String)
    (status : Nat) (hs : UpHeaders) (delivered : List Nat) (errored : Bool)
    (hdec : decodeBytes raw = some d) (hok : urlRejected d = false)
    (h200 : status ≠ 200) (h206 : status ≠ 206) :
    (streamHandler raw range (.resp status hs delivered errored)).2 =
      [.json 500 (streamCatchBody
        (if 200 ≤ status ∧ status < 300 then
          "Unexpected response status: " ++ toString status
        else
          "Request failed with status code " ++ toString status))] := by
  have h1 : ¬(status = 200 ∨ status = 206) := by
    rintro (h | h)
    · exact h200 h
    · exact h206 h
  by_cases h2 : 200 ≤ status ∧ status < 300
  · simp [streamHandler, hdec, hok, streamPhase2, h1, h2]
  · simp [streamHandler, hdec, hok, streamPhase2, h1, h2]

/-- Witness for C6 at a concrete upstream 404. -/
theorem c6_witness :
    (streamHandler goodRaw none (.resp 404 ⟨none, none, none, none⟩ [] false)).2 =
      [.json 500 (streamCatchBody
        (if 200 ≤ 404 ∧ 404 < 300 then
          "Unexpected response status: " ++ toString 404
        else
          "Request failed with status code " ++ toString 404))] :=
  c6_unexpected_status_500 goodRaw
    (strBytes "https://valiw.hakunaymatata.com/movie.mp4") none 404
    ⟨none, none, none, none⟩ [] false (by decide) (by decide) (by decide) (by decide)

/-- C7: the download filename is extracted by trying the quoted pattern
first and the unquoted pattern second, path separators are stripped by
keeping only the final path component, the fixed fallback is used when the
header is absent or unparseable, and no extracted filename ever contains a
path separator. -/
theorem c7_filename_extraction :
    extractFilename (some "attachment; filename=\"a/b/evil.mp4\"") = "evil.mp4"
    ∧ extractFilename none = "Movie_by_GiftedTech.mp4"
    ∧ extractFilename (some "attachment; filename=plain.mp4; size=3") = "plain.mp4"
    ∧ extractFilename (some "attachment; filename=\"both.mp4\"") = "both.mp4"
    ∧ ∀ cd : Option String,
        '/' ∉ (extractFilename cd).data ∧ '\\' ∉ (extractFilename cd).data := by
  refine ⟨by decide, by decide, by decide, by decide, ?_⟩
  intro cd
  have key : ∀ l : List Char,
      (∀ c ∈ l, (c == '/' || c == '\\') = false) → '/' ∉ l ∧ '\\' ∉ l := by
    intro l h
    constructor
    · intro hmem
      have := h _ hmem
      simp at this
    · intro hmem
      have := h _ hmem
      simp at this
  unfold extractFilename
  split
  · rename_i htru
    cases hcap : cdCapture (jsStr cd).data with
    | none => simp only [hcap]; exact key _ (by decide)
    | some cap =>
      simp only [hcap]
      exact key _ (lastCompAux_no_sep (jsTrim cap) [] (by simp))
  · exact key _ (by decide)

/-- C8: for a valid URL whose upstream 200/206 body stream errors after
bytes (hence headers) have been sent, the handler performs no second write
and emits no JSON error body; when the upstream fails before any response,
the client receives a single well-formed JSON 500. -/
theorem c8_midstream_error_no_second_write
    (raw d : List Nat) (range : Option String)
    (hs : UpHeaders) (delivered : List Nat) (msg : String)
    (hdec : decodeBytes raw = some d) (hok : urlRejected d = false)
    (hnz : delivered ≠ []) :
    (streamHandler raw range (.resp 200 hs delivered true)).2 =
      [.head (streamRelayHead 200 hs).1 (streamRelayHead 200 hs).2, .body delivered]
    ∧ (streamHandler raw range (.resp 206 hs delivered true)).2 =
      [.head (streamRelayHead 206 hs).1 (streamRelayHead 206 hs).2, .body delivered]
    ∧ (streamHandler raw range (.netError msg)).2 = [.json 500 (streamCatchBody msg)] := by
  have hde : delivered.isEmpty = false := by
    cases delivered with
    | nil => exact absurd rfl hnz
    | cons a t => rfl
  refine ⟨?_, ?_, ?_⟩ <;> simp [streamHandler, hdec, hok, streamPhase2, hde]

/-- Witness for C8 at a concrete valid URL with one delivered byte. -/
theorem c8_witness :
    (streamHandler goodRaw none
        (.resp 200 ⟨some "video/mp4", some "10", none, none⟩ [7] true)).2 =
      [.head (streamRelayHead 200 ⟨some "video/mp4", some "10", none, none⟩).1
         (streamRelayHead 200 ⟨some "video/mp4", some "10", none, none⟩).2,
       .body [7]]
    ∧ (streamHandler goodRaw none
        (.resp 206 ⟨some "video/mp4", some "10", none, none⟩ [7] true)).2 =
      [.head (streamRelayHead 206 ⟨some "video/mp4", some "10", none, none⟩).1
         (streamRelayHead 206 ⟨some "video/mp4", some "10", none, none⟩).2,
       .body [7]]
    ∧ (streamHandler goodRaw none (.netError "socket hang up")).2 =
      [.json 500 (streamCatchBody "socket hang up")] :=
  c8_midstream_error_no_second_write goodRaw
    (strBytes "https://valiw.hakunaymatata.com/movie.mp4") none
    ⟨some "video/mp4", some "10", none, none⟩ [7] "socket hang up"
    (by decide) (by decide) (by decide)

/-- C9 counterexample: the stream endpoint's 400 error body carries no
"success" field at all, contradicting the claimed body shape. -/
theorem c9_counterexample :
    (streamHandler (strBytes "nota-url") none (.netError "e")).2
      = [.json 400 streamBody400]
    ∧ streamBody400.lookup "success" = none := by
  decide

/-- C9 (amended): download-endpoint error bodies carry success = "false";
stream-endpoint error bodies instead carry status = "error" and no success
field; so every proxy JSON error body contains either a success field valued
"false" or a status field valued "error". -/
theorem c9_error_body_shape (msg : String) :
    downloadBody400.lookup "success" = some (.s "false")
    ∧ (downloadCatchBody msg).lookup "success" = some (.s "false")
    ∧ downloadBody400.lookup "status" = some (.n 400)
    ∧ (downloadCatchBody msg).lookup "status" = some (.n 500)
    ∧ streamBody400.lookup "status" = some (.s "error")
    ∧ streamErrBody.lookup "status" = some (.s "error")
    ∧ (streamCatchBody msg).lookup "status" = some (.s "error")
    ∧ streamBody400.lookup "success" = none
    ∧ streamErrBody.lookup "success" = none
    ∧ (streamCatchBody msg).lookup "success" = none := by
  exact ⟨rfl, rfl, rfl, rfl, rfl, rfl, rfl, rfl, rfl, rfl⟩

/-- C10: an upstream 206 with no Content-Range header is relayed with the
default status 200 and with neither Content-Range nor Content-Length set,
the body still being piped; a downstream 206 arises only when the upstream
status is 206 and a Content-Range header is present. -/
theorem c10_206_without_content_range
    (raw d : List Nat) (range : Option String)
    (hs : UpHeaders) (delivered : List Nat)
    (hdec : decodeBytes raw = some d) (hok : urlRejected d = false)
    (hcr : hs.contentRange = none) :
    (streamHandler raw range (.resp 206 hs delivered false)).2 =
      [.head 200 (streamBaseHeaders hs), .body delivered]
    ∧ (streamBaseHeaders hs).lookup "Content-Range" = none
    ∧ (streamBaseHeaders hs).lookup "Content-Length" = none
    ∧ ∀ (st : Nat) (hs2 : UpHeaders),
        (streamRelayHead st hs2).1 = 206 → st = 206 ∧ hs2.contentRange ≠ none := by
  refine ⟨?_, rfl, rfl, ?_⟩
  · simp [streamHandler, hdec, hok, streamPhase2, streamRelayHead, jsTruthy, hcr]
  · intro st hs2 h
    unfold streamRelayHead at h
    split at h
    · rename_i hcond
      refine ⟨hcond.1, fun hn => ?_⟩
      have := hcond.2
      rw [hn] at this
      simp [jsTruthy] at this
    · split at h
      · simp at h
      · simp at h

/-- Witness for C10 at a concrete 206 response lacking Content-Range. -/
theorem c10_witness :
    (streamHandler goodRaw (some "bytes=0-9")
        (.resp 206 ⟨some "video/mp4", none, none, none⟩ [3, 4] false)).2 =
      [.head 200 (streamBaseHeaders ⟨some "video/mp4", none, none, none⟩),
       .body [3, 4]]
    ∧ (streamBaseHeaders ⟨some "video/mp4", none, none, none⟩).lookup
        "Content-Range" = none
    ∧ (streamBaseHeaders ⟨some "video/mp4", none, none, none⟩).lookup
        "Content-Length" = none
    ∧ ∀ (st : Nat) (hs2 : UpHeaders),
        (streamRelayHead st hs2).1 = 206 → st = 206 ∧ hs2.contentRange ≠ none :=
  c10_206_without_content_range goodRaw
    (strBytes "https://valiw.hakunaymatata.com/movie.mp4") (some "bytes=0-9")
    ⟨some "video/mp4", none, none, none⟩ [3, 4]
    (by decide) (by decide) (by decide)
